import Mathlib

/-!
# A shallow embedding of the HomeKit accessory object graph

This file embeds the runtime object graph of the `homekit` repository —
`Characteristic` (value cell), `Service` (grouping), `Accessory` / `Bridge`
(device node / aggregator) — as pure Lean definitions, and proves properties
of the serialization (`toHAP`), the get/set/update protocol, and the
collection operations (`addCharacteristic`, `removeCharacteristic`,
`getCharacteristic`, `addBridgedAccessory`, `removeBridgedAccessory`).

Conventions of the embedding:
* JavaScript primitive values are modelled by `JSValue` (null/undefined are
  collapsed to `JSValue.null`; numbers are exact rationals; objects and
  arrays are outside the modelled value grammar).
* A method that can `throw` is modelled as returning an `Except` result
  together with the post-state; a `throw` that happens before any mutation
  returns the unchanged input state.
* Event emission is modelled by returning the list of emitted events.
* JavaScript strict equality `===` on the modelled primitives coincides with
  structural (decidable) equality on `JSValue`.
-/

set_option autoImplicit false

/-- A JavaScript primitive value as used for characteristic values.
`null` also stands for `undefined` (the source only ever tests the two
together, via `=== undefined || === null` or `!= null`). -/
inductive JSValue where
  | null
  | bool (b : Bool)
  | num (q : ℚ)
  | str (s : String)
deriving DecidableEq, Repr

/-- The `Characteristic.Formats` table from the source. The `ARRAY` and `DICTIONARY`
formats (marked "unconfirmed" in the source, with fresh mutable objects as
defaults) lie outside the modelled value grammar and are omitted. -/
inductive Format where
  | bool
  | int
  | float
  | string
  | uint8
  | uint16
  | uint32
  | uint64
  | data
  | tlv8
deriving DecidableEq, Repr

/-- The `Characteristic.Units` table from the source. -/
inductive UnitKind where
  | celsius
  | percentage
  | arcdegrees
  | lux
  | seconds
deriving DecidableEq, Repr

/-- The `Characteristic.Perms` table from the source. -/
inductive Perm where
  | read
  | write
  | notify
  | hidden
deriving DecidableEq, Repr

/-- The `props` record of a characteristic. Bounds and steps are numbers in
the source registry, hence rationals here. An absent (`null`/`undefined`)
field is `none`; the source only ever tests these fields with `!= null`,
which is `Option.isSome` here. -/
structure Props where
  format : Option Format := none
  unit : Option UnitKind := none
  minValue : Option ℚ := none
  maxValue : Option ℚ := none
  minStep : Option ℚ := none
  perms : List Perm := []
  validValues : Option (List ℚ) := none
  validValueRanges : Option (List ℚ) := none
deriving DecidableEq, Repr

/-- The state of a `Characteristic` (a value cell): `displayName`, `UUID`,
`iid`, the cached `value` and the `props`, as set up by the constructor in
`Characteristic.js`. `ctorTag` records the runtime subclass of the instance
(the name of the concrete constructor), used to model the `instanceof`
test in `Service.prototype.getCharacteristic`. -/
structure Characteristic where
  displayName : String
  UUID : String
  iid : Option Int := none
  value : JSValue := JSValue.null
  props : Props := {}
  ctorTag : Option String := none
deriving DecidableEq, Repr

/-- The payload of a `change` event:
`{ oldValue: oldValue, newValue: newValue, context: context }`. -/
structure ChangeEvent where
  oldValue : JSValue
  newValue : JSValue
  context : Option String
deriving DecidableEq, Repr

/-! ## Number conversions used by `toHAP`

JavaScript's `ToNumber`, `parseInt` and `parseFloat`, restricted to the
modelled value grammar. String parsing covers plain decimal literals
(optional sign, digits, optional fraction); exponent and hex notations are
not modelled. A `none` result of `toNumber` stands for `NaN`; every
comparison against `NaN` is false, which is how it is consumed below. -/

/-- Fold a list of decimal digit characters to a natural number. -/
def digitsToNat (l : List Char) : Nat :=
  l.foldl (fun n ch => n * 10 + (ch.toNat - 48)) 0

/-- Parse a leading decimal literal (optional sign, integer part, optional
fraction) from a character list; return its value and the unconsumed rest. -/
def parseDec (l : List Char) : Option (ℚ × List Char) :=
  let signed : ℚ × List Char :=
    match l with
    | '-' :: r => (-1, r)
    | '+' :: r => (1, r)
    | r => (1, r)
  let sign := signed.1
  let ip := signed.2.takeWhile Char.isDigit
  let l2 := signed.2.dropWhile Char.isDigit
  match l2 with
  | '.' :: r =>
    let fp := r.takeWhile Char.isDigit
    let l3 := r.dropWhile Char.isDigit
    if ip.isEmpty && fp.isEmpty then none
    else some (sign * ((digitsToNat ip : ℚ) + (digitsToNat fp : ℚ) / 10 ^ fp.length), l3)
  | _ => if ip.isEmpty then none else some (sign * (digitsToNat ip : ℚ), l2)

/-- JavaScript `ToNumber` on a string: trimmed empty string is `0`, otherwise
the whole trimmed string must be a decimal literal, else `NaN` (`none`). -/
def strToNumber (s : String) : Option ℚ :=
  let t := s.trim
  if t = "" then some 0
  else
    match parseDec t.data with
    | some (q, []) => some q
    | _ => none

/-- JavaScript `ToNumber` on the modelled value grammar (`none` = `NaN`). -/
def toNumber : JSValue → Option ℚ
  | JSValue.null => some 0
  | JSValue.bool b => some (if b then 1 else 0)
  | JSValue.num q => some q
  | JSValue.str s => strToNumber s

/-- The JavaScript comparison `v < m` where `m` is a number (the relational
comparison converts `v` with `ToNumber`; a `NaN` operand makes it false). -/
def jsLtNum (v : JSValue) (m : ℚ) : Bool :=
  match toNumber v with
  | some q => decide (q < m)
  | none => false

/-- The JavaScript comparison `v > m` where `m` is a number. -/
def jsGtNum (v : JSValue) (m : ℚ) : Bool :=
  match toNumber v with
  | some q => decide (m < q)
  | none => false

/-- Truncation toward zero, as `parseInt` applies to a (finite, plainly
printed) number argument. -/
def truncQ (q : ℚ) : ℤ :=
  if q < 0 then -(⌊-q⌋) else ⌊q⌋

/-- JavaScript `Math.round`: round half toward positive infinity. -/
def roundHalfUp (q : ℚ) : ℤ :=
  ⌊q + 1 / 2⌋

/-- The `decimalPlaces` helper of `Characteristic.js`: the number of digits
after the decimal point of the printed number. For a step value that prints
as a plain decimal this is the least `d` with `q * 10 ^ d` integral
(searched up to 20, the longest fraction a printed double can carry). -/
def decimalPlaces (q : ℚ) : Nat :=
  (((List.range 21).find? fun d => (q * 10 ^ d).den = 1).getD 0)

/-- JavaScript `parseInt` on the modelled value grammar. On a number it truncates
toward zero; on a string it parses a leading signed integer. A `NaN`
outcome (non-numeric argument) is outside the model and the argument is
returned unchanged; no reachable claim exercises it. -/
def jsParseInt : JSValue → JSValue
  | JSValue.num q => JSValue.num (truncQ q)
  | JSValue.str s =>
    let signed : ℚ × List Char :=
      match s.trim.data with
      | '-' :: r => (-1, r)
      | '+' :: r => (1, r)
      | r => (1, r)
    let ds := signed.2.takeWhile Char.isDigit
    if ds.isEmpty then JSValue.str s else JSValue.num (signed.1 * (digitsToNat ds : ℚ))
  | v => v

/-- JavaScript `parseFloat` on the modelled value grammar: numbers pass through,
strings are parsed as a leading decimal literal (trailing garbage ignored).
A `NaN` outcome is outside the model; the argument passes through. -/
def jsParseFloat : JSValue → JSValue
  | JSValue.num q => JSValue.num q
  | JSValue.str s =>
    match parseDec s.trim.data with
    | some (q, _) => JSValue.num q
    | none => JSValue.str s
  | v => v

/-! ## UTF-8 byte accounting for the string branch of `toHAP` -/

/-- Total UTF-8 byte size of a character list. -/
def listByteLen (l : List Char) : Nat :=
  (l.map Char.utf8Size).sum

/-- UTF-8 byte length of a string (`Buffer.byteLength(s, 'utf8')`). -/
def utf8Len (s : String) : Nat :=
  listByteLen s.data

/-- The longest prefix of a character list whose UTF-8 encoding fits in
`budget` bytes. -/
def takeBytes : Nat → List Char → List Char
  | budget, c :: cs => if c.utf8Size ≤ budget then c :: takeBytes (budget - c.utf8Size) cs else []
  | _, [] => []

/-- Node `Buffer.from(s, 'utf8').toString('utf8', 0, n)`: decode the first `n`
bytes of the UTF-8 encoding of `s`. When the cut falls inside a character,
the dangling truncated sequence decodes to a single replacement character
U+FFFD, per the WHATWG decoding Node applies. -/
def bufferUtf8Slice (s : String) (n : Nat) : String :=
  if utf8Len s ≤ n then s
  else
    let p := takeBytes n s.data
    if listByteLen p = n then String.mk p else String.mk (p ++ ['�'])

/-! ## `Characteristic` methods -/

namespace Characteristic

/-- Method `getDefaultValue`, keyed on `props.format`. The numeric default is
`this.props.minValue || 0`; since `0 || 0` is `0`, this is `getD 0`. -/
def getDefaultValue (c : Characteristic) : JSValue :=
  match c.props.format with
  | some Format.bool => JSValue.bool false
  | some Format.string => JSValue.str ""
  | some Format.data => JSValue.str ""
  | some Format.tlv8 => JSValue.str ""
  | _ => JSValue.num (c.props.minValue.getD 0)

/-- Method `setProps`: shallow-merge into `props` (modelled at the record level:
every explicitly given field overwrites, the rest keep their value). -/
def setProps (c : Characteristic) (p : Props) : Characteristic :=
  { c with props := p }

instance {ε α : Type} [DecidableEq ε] [DecidableEq α] : DecidableEq (Except ε α) := fun a b =>
  match a, b with
  | Except.error e, Except.error e' =>
    match decEq e e' with
    | isTrue h => isTrue (h ▸ rfl)
    | isFalse h => isFalse (fun hh => h (Except.error.inj hh))
  | Except.ok v, Except.ok v' =>
    match decEq v v' with
    | isTrue h => isTrue (h ▸ rfl)
    | isFalse h => isFalse (fun hh => h (Except.ok.inj hh))
  | Except.error _, Except.ok _ => isFalse (fun hh => Except.noConfusion hh)
  | Except.ok _, Except.error _ => isFalse (fun hh => Except.noConfusion hh)

/-- The observable effects of one `getValue` request: the invocations of the
caller's callback (each `Except.error e` a `callback(err)`, each
`Except.ok v` a `callback(null, v)`), and the emitted `change` events. -/
structure GetEffects where
  callbackCalls : List (Except String JSValue)
  events : List ChangeEvent
deriving DecidableEq, Repr

/-- The observable effects of one `setValue`/`updateValue` request: the
invocations of the caller's callback (`some e` a `callback(err)`, `none` a
plain `callback()`), and the emitted `change` events. -/
structure SetEffects where
  callbackCalls : List (Option String)
  events : List ChangeEvent
deriving DecidableEq, Repr

/-- Modelled from the spec: the `once` latch (`src/lib/util/once` is
required by `Characteristic.js` but is not in the source tree). Per the
spec, the latched callback "discards all resolutions after the first":
only the first call acts, later calls are silently dropped. `calls` is the
ordered list of argument values the override passes to its latched
callback; the latch keeps the head. -/
def latchFirst {α : Type} (calls : List α) : Option α :=
  calls.head?

/-- Method `getValue(callback, context, connectionID)`.

`override = none` models "no listener on the `'get'` event": the cached
value is returned immediately. `override = some calls` models a registered
read-override, where `calls` lists the resolutions it feeds to the latched
callback (`Except.error e` for `callback(err)`, `Except.ok v` for
`callback(null, v)`); only the first resolution acts. On a successful first
resolution, a `null`/`undefined` value is replaced by the format default,
the cache is updated, the caller's callback receives the value, and a
`change` event fires iff the cached value changed. -/
def getValue (c : Characteristic) (override : Option (List (Except String JSValue)))
    (context : Option String) : GetEffects × Characteristic :=
  match override with
  | some calls =>
    match latchFirst calls with
    | none => ({ callbackCalls := [], events := [] }, c)
    | some (Except.error e) => ({ callbackCalls := [Except.error e], events := [] }, c)
    | some (Except.ok nv0) =>
      let nv := if nv0 = JSValue.null then c.getDefaultValue else nv0
      let oldValue := c.value
      ({ callbackCalls := [Except.ok nv],
         events := if oldValue ≠ nv then [⟨oldValue, nv, context⟩] else [] },
       { c with value := nv })
  | none => ({ callbackCalls := [Except.ok c.value], events := [] }, c)

/-- Method `setValue(newValue, callback, context, connectionID)`.

`override = none` models "no listener on the `'set'` event": the value is
assigned blindly. `override = some calls` models a registered
write-override, `calls` listing the resolutions it feeds to the latched
callback (`some e` for `callback(err)`, `none` for `callback()`); only the
first resolution acts. -/
def setValue (c : Characteristic) (newValue : JSValue)
    (override : Option (List (Option String))) (context : Option String) :
    SetEffects × Characteristic :=
  match override with
  | some calls =>
    match latchFirst calls with
    | none => ({ callbackCalls := [], events := [] }, c)
    | some (some e) => ({ callbackCalls := [some e], events := [] }, c)
    | some none =>
      let nv := if newValue = JSValue.null then c.getDefaultValue else newValue
      let oldValue := c.value
      ({ callbackCalls := [none],
         events := if oldValue ≠ nv then [⟨oldValue, nv, context⟩] else [] },
       { c with value := nv })
  | none =>
    let nv := if newValue = JSValue.null then c.getDefaultValue else newValue
    let oldValue := c.value
    ({ callbackCalls := [none],
       events := if oldValue ≠ nv then [⟨oldValue, nv, context⟩] else [] },
     { c with value := nv })

/-- Method `updateValue(newValue, callback, context)`: always the blind,
unconditional cache set, with default-fill and change-emission. -/
def updateValue (c : Characteristic) (newValue : JSValue) (context : Option String) :
    SetEffects × Characteristic :=
  let nv := if newValue = JSValue.null then c.getDefaultValue else newValue
  let oldValue := c.value
  ({ callbackCalls := [none],
     events := if oldValue ≠ nv then [⟨oldValue, nv, context⟩] else [] },
   { c with value := nv })

end Characteristic

/-! ## The wire projection `Characteristic.prototype.toHAP` -/

/-- The `opt` argument of `toHAP`; `opt && opt.omitValues` in the source. -/
structure ToHAPOptions where
  omitValues : Bool := false
deriving DecidableEq, Repr

/-- The wire object built by `Characteristic.prototype.toHAP`. A `none`
field is an absent key (and `value := none` models the `delete hap.value`
paths). -/
structure CharacteristicHAP where
  iid : Option Int
  type : String
  perms : List Perm
  format : Option Format
  value : Option JSValue
  description : String
  validValues : Option (List ℚ) := none
  validValuesRange : Option (List ℚ) := none
  unit : Option UnitKind := none
  maxValue : Option ℚ := none
  minValue : Option ℚ := none
  minStep : Option ℚ := none
  maxLen : Option Nat := none
deriving DecidableEq, Repr

namespace Characteristic

/-- Lines 223–225 of `Characteristic.js`: start from the cached value and
clamp to `minValue`/`maxValue` when those props are present. The second
comparison sees the value produced by the first. -/
def clampedValue (c : Characteristic) : JSValue :=
  let value := c.value
  let value :=
    match c.props.minValue with
    | some mn => if jsLtNum value mn then JSValue.num mn else value
    | none => value
  match c.props.maxValue with
  | some mx => if jsGtNum value mx then JSValue.num mx else value
  | none => value

/-- Lines 226–244 of `Characteristic.js`: coerce per format. Integer-like
formats (`int`, `uint8/16/32/64`) go through `parseInt`; `float` goes
through `parseFloat` and, when `minStep` is set, is rounded to the decimal
precision of the step. Other formats (and an absent format) pass through. -/
def coerceValue (p : Props) (v : JSValue) : JSValue :=
  match p.format with
  | none => v
  | some f =>
    if f = Format.int ∨ f = Format.uint8 ∨ f = Format.uint16 ∨
        f = Format.uint32 ∨ f = Format.uint64 then
      jsParseInt v
    else if f = Format.float then
      let v := jsParseFloat v
      match p.minStep, v with
      | some st, JSValue.num q =>
        let pw : ℚ := 10 ^ decimalPlaces st
        JSValue.num ((roundHalfUp (q * pw) : ℚ) / pw)
      | _, _ => v
    else v

/-- Lines 274–284 of `Characteristic.js`: for the `string` format, measure
the UTF-8 byte length of the (clamped, coerced) value; above 256 bytes the
emitted value is the decoding of the first 256 bytes and `maxLen` is 256;
above 64 bytes `maxLen` reports the actual length. A non-string value
reaching this branch (`new Buffer` of a non-string) is outside the model
and leaves the object unchanged. -/
def stringStage (fmt : Option Format) (value : JSValue) (hap : CharacteristicHAP) :
    CharacteristicHAP :=
  if fmt = some Format.string then
    match value with
    | JSValue.str s =>
      let len := utf8Len s
      if 256 < len then
        { hap with value := some (JSValue.str (bufferUtf8Slice s 256)), maxLen := some 256 }
      else if 64 < len then { hap with maxLen := some len }
      else hap
    | _ => hap
  else hap

/-- Lines 246–284 of `Characteristic.js`: assemble the wire object from the
clamped and coerced value and the props. The conditional assignments of the
source (`if (x != null) hap.y = x`) become conditional fields; `valid-values`
requires a non-empty list, `valid-values-range` a non-empty list of even
length (`!(length & 1)`). The string branch is applied last. -/
def hapBase (c : Characteristic) : CharacteristicHAP :=
  let value := coerceValue c.props (clampedValue c)
  stringStage c.props.format value
    { iid := c.iid
      type := c.UUID
      perms := c.props.perms
      format := c.props.format
      value := some value
      description := c.displayName
      validValues :=
        match c.props.validValues with
        | some vs => if 0 < vs.length then some vs else none
        | none => none
      validValuesRange :=
        match c.props.validValueRanges with
        | some vr => if 0 < vr.length ∧ vr.length % 2 = 0 then some vr else none
        | none => none
      unit := c.props.unit
      maxValue := c.props.maxValue
      minValue := c.props.minValue
      minStep := c.props.minStep
      maxLen := none }

/-- Lines 286–288: `delete hap.value` when the `READ` permission is absent
(`perms.indexOf(READ) == -1`). -/
def applyReadPerm (perms : List Perm) (hap : CharacteristicHAP) : CharacteristicHAP :=
  if perms.contains Perm.read then hap else { hap with value := none }

/-- Lines 290–292: `delete hap.value` when `opt && opt.omitValues`. -/
def applyOmitValues (opt : Option ToHAPOptions) (hap : CharacteristicHAP) : CharacteristicHAP :=
  match opt with
  | some o => if o.omitValues then { hap with value := none } else hap
  | none => hap

/-- Method `Characteristic.prototype.toHAP(opt)` as a state function: the wire
object, paired with the cell state after the call. The source reads
`this.value`, `this.props`, `this.iid`, `this.UUID` and `this.displayName`
but assigns only to the local `value` and `hap`; the post-state is the
input state. -/
def toHAPRun (c : Characteristic) (opt : Option ToHAPOptions) :
    CharacteristicHAP × Characteristic :=
  (applyOmitValues opt (applyReadPerm c.props.perms (hapBase c)), c)

/-- The wire object returned by `toHAP`. -/
def toHAP (c : Characteristic) (opt : Option ToHAPOptions) : CharacteristicHAP :=
  (toHAPRun c opt).1

end Characteristic

/-! ## `Service` (grouping) -/

/-- The errors thrown by the collection operations (`throw new Error(...)`
in the source), tagged by site; the duplicate-UUID errors carry the UUID of
the existing member that the message interpolates. -/
inductive HKError where
  | duplicateCharacteristicUUID (uuid : String)
  | cannotBridgeBridge
  | duplicateBridgedUUID (uuid : String)
  | accessoryNotFound
deriving DecidableEq, Repr

/-- The state of a `Service`: `displayName`, `UUID`, `subtype`, `iid`, the
active characteristics (wire order) and the optional templates, as set up
by the constructor in `Service.js`. -/
structure Service where
  displayName : String
  UUID : String
  subtype : Option String := none
  iid : Option Int := none
  isPrimaryService : Option Bool := none
  characteristics : List Characteristic := []
  optionalCharacteristics : List Characteristic := []
deriving DecidableEq, Repr

/-- The selector argument of `getCharacteristic`/`testCharacteristic`:
either a display-name string, or a characteristic constructor. A
constructor is modelled by its name (`tag`, matched against the runtime
subclass of an instance for `characteristic instanceof name`), its static
`UUID` (`name.UUID === characteristic.UUID`) and the instance a
zero-argument `new` of it produces (`blueprint`). -/
inductive Selector where
  | byName (name : String)
  | byType (tag : String) (typeUUID : String) (blueprint : Characteristic)

/-- The type-descriptor match of `Service.prototype.getCharacteristic`:
`(characteristic instanceof name) || (name.UUID === characteristic.UUID)`. -/
def matchesSelector (tag typeUUID : String) (c : Characteristic) : Bool :=
  c.ctorTag = some tag || typeUUID = c.UUID

/-- Remove the first occurrence of `a` in `l`, or `none` when absent. The
source finds the member with `===`; on the modelled value-level states,
structural equality stands in for object identity. -/
def removeFirstEq {α : Type} [DecidableEq α] : List α → α → Option (List α)
  | [], _ => none
  | e :: es, a => if e = a then some es else (removeFirstEq es a).map (fun l => e :: l)

namespace Service

/-- Method `Service.prototype.addCharacteristic` for an instance argument: throw if
an active characteristic already carries the same UUID (the error carries
the existing member's UUID), else subscribe to its change event (bubbling
is not modelled), append it, and return it. The duplicate check runs before
any mutation, so the error path returns the unchanged service. -/
def addCharacteristic (s : Service) (c : Characteristic) :
    Except HKError Characteristic × Service :=
  match s.characteristics.find? (fun e => e.UUID = c.UUID) with
  | some e => (Except.error (HKError.duplicateCharacteristicUUID e.UUID), s)
  | none => (Except.ok c, { s with characteristics := s.characteristics ++ [c] })

/-- Method `Service.prototype.removeCharacteristic`: find the member (by `===`,
modelled structurally), splice it out when found. The source contains no
`throw`: an absent member leaves the list untouched and returns normally,
so the `Except` result is always `ok` (kept for uniformity with the other
collection operations). -/
def removeCharacteristic (s : Service) (c : Characteristic) : Except HKError Service :=
  match removeFirstEq s.characteristics c with
  | some l => Except.ok { s with characteristics := l }
  | none => Except.ok s

/-- Method `Service.prototype.getCharacteristic`: a string selector matches the
first active characteristic with that display name; a constructor selector
matches the first active characteristic by `instanceof`-or-UUID, and on a
miss scans the optional templates — a hit there adds a fresh instance of
the constructor via `addCharacteristic` (lazy promotion) and returns it.
No match at all returns `none`. -/
def getCharacteristic (s : Service) (sel : Selector) :
    Except HKError (Option Characteristic) × Service :=
  match sel with
  | Selector.byName n =>
    (Except.ok (s.characteristics.find? (fun c => c.displayName = n)), s)
  | Selector.byType tag tu bp =>
    match s.characteristics.find? (matchesSelector tag tu) with
    | some c => (Except.ok (some c), s)
    | none =>
      if s.optionalCharacteristics.any (matchesSelector tag tu) then
        match addCharacteristic s bp with
        | (Except.ok c, s') => (Except.ok (some c), s')
        | (Except.error e, s') => (Except.error e, s')
      else (Except.ok none, s)

/-- Method `Service.prototype.testCharacteristic`: existence under the same
matching rule, no promotion. -/
def testCharacteristic (s : Service) (sel : Selector) : Bool :=
  match sel with
  | Selector.byName n => s.characteristics.any (fun c => c.displayName = n)
  | Selector.byType tag tu _ => s.characteristics.any (matchesSelector tag tu)

end Service

/-- The wire object built by `Service.prototype.toHAP`. -/
structure ServiceHAP where
  iid : Option Int
  type : String
  characteristics : List CharacteristicHAP
  primary : Option Bool := none
deriving DecidableEq, Repr

/-- Method `Service.prototype.toHAP(opt)`: project every active characteristic in
order, plus the optional `primary` flag. -/
def Service.toHAP (s : Service) (opt : Option ToHAPOptions) : ServiceHAP :=
  { iid := s.iid
    type := s.UUID
    characteristics := s.characteristics.map (fun c => Characteristic.toHAP c opt)
    primary := s.isPrimaryService }

/-! ## `Accessory` / `Bridge` (device node / aggregator) -/

/-- The state of an `Accessory` as far as the bridge operations read it:
`UUID`, `_isBridge`, `bridged`, `reachable` and `category` (the last two
are seeded into the bridging-state grouping on addition). `Accessory.js`
itself is not in the source tree; the fields follow the spec's DeviceNode
data model and the uses in `Bridge`. -/
structure Accessory where
  displayName : String
  UUID : String
  isBridge : Bool := false
  bridged : Bool := false
  reachable : JSValue := JSValue.null
  category : JSValue := JSValue.null
  bridgingState : Option (JSValue × JSValue × JSValue) := none
deriving DecidableEq, Repr

/-- The state of a `Bridge`: an accessory with `_isBridge = true` and the
ordered list of bridged accessories. `configUpdates` counts the
`_updateConfiguration` recomputations. -/
structure Bridge where
  displayName : String
  UUID : String
  bridgedAccessories : List Accessory := []
  configUpdates : Nat := 0
deriving DecidableEq, Repr

namespace Bridge

/-- Modelled from the spec: `_updateConfiguration` (defined in
`Accessory.js`, which is not in the source tree) "recomputes the
externally-visible configuration signature"; the model counts the
recomputations. -/
def updateConfiguration (b : Bridge) : Bridge :=
  { b with configUpdates := b.configUpdates + 1 }

/-- Modelled from the spec: the bridging-state seeding of
`addBridgedAccessory` goes through `Accessory.getService`/`addService`
(not in the source tree); per the spec it "ensures the child has a
bridging-state Grouping (creates if absent), seeding it with the child's
UUID, reachability, and category at the time of addition". -/
def seedBridgingState (a : Accessory) : Accessory :=
  { a with bridgingState := some (JSValue.str a.UUID, a.reachable, a.category) }

/-- Method `Bridge.prototype.addBridgedAccessory(accessory, deferUpdate)`: throw
on `accessory._isBridge`; throw on a UUID collision with an existing
bridged accessory (the error carries the existing member's UUID); both
throws run before any mutation. Otherwise seed the bridging state, mark
the child bridged, subscribe to its change events (bubbling is not
modelled), append it, and recompute the configuration unless deferred.
Returns the (mutated) accessory. -/
def addBridgedAccessory (b : Bridge) (a : Accessory) (deferUpdate : Bool) :
    Except HKError Accessory × Bridge × Accessory :=
  if a.isBridge then (Except.error HKError.cannotBridgeBridge, b, a)
  else
    match b.bridgedAccessories.find? (fun e => e.UUID = a.UUID) with
    | some e => (Except.error (HKError.duplicateBridgedUUID e.UUID), b, a)
    | none =>
      let a' := { seedBridgingState a with bridged := true }
      let b' := { b with bridgedAccessories := b.bridgedAccessories ++ [a'] }
      (Except.ok a', if deferUpdate then b' else updateConfiguration b', a')

/-- Remove the first accessory with the given UUID, or `none` when absent
(the splice-inside-the-loop of the source). -/
def removeFirstByUUID : List Accessory → String → Option (List Accessory)
  | [], _ => none
  | e :: es, u => if e.UUID = u then some es else (removeFirstByUUID es u).map (fun l => e :: l)

/-- Method `Bridge.prototype.removeBridgedAccessory(accessory, deferUpdate)`:
throw on `accessory._isBridge`; splice out the first UUID match; throw
`accessoryNotFound` when no match was spliced (the list is then untouched);
otherwise unsubscribe the child's listeners (not modelled) and recompute
the configuration unless deferred. -/
def removeBridgedAccessory (b : Bridge) (a : Accessory) (deferUpdate : Bool) :
    Except HKError Unit × Bridge :=
  if a.isBridge then (Except.error HKError.cannotBridgeBridge, b)
  else
    match removeFirstByUUID b.bridgedAccessories a.UUID with
    | none => (Except.error HKError.accessoryNotFound, b)
    | some l =>
      let b' := { b with bridgedAccessories := l }
      (Except.ok (), if deferUpdate then b' else updateConfiguration b')

end Bridge

/-! # Helper lemmas -/

/-- Removal by structural equality returns `none` exactly on an absent
element. -/
theorem removeFirstEq_eq_none {α : Type} [DecidableEq α] {l : List α} {a : α}
    (h : a ∉ l) : removeFirstEq l a = none := by
  induction l with
  | nil => rfl
  | cons e es ih =>
    have h1 : ¬ e = a := fun hh => h (by rw [hh]; exact List.mem_cons_self _ _)
    have h2 : a ∉ es := fun hh => h (List.mem_cons_of_mem _ hh)
    simp [removeFirstEq, h1, ih h2]

/-- Removal by UUID returns `none` when no member carries the UUID. -/
theorem removeFirstByUUID_eq_none {l : List Accessory} {u : String}
    (h : ∀ e ∈ l, e.UUID ≠ u) : Bridge.removeFirstByUUID l u = none := by
  induction l with
  | nil => rfl
  | cons e es ih =>
    have h1 : ¬ e.UUID = u := h e (List.mem_cons_self _ _)
    have h2 : ∀ x ∈ es, x.UUID ≠ u := fun x hx => h x (List.mem_cons_of_mem _ hx)
    simp [Bridge.removeFirstByUUID, h1, ih h2]

/-- Deleting the `value` key is absorbed by the `omitValues` stage. -/
theorem applyOmitValues_value_none (opt : Option ToHAPOptions) (hap : CharacteristicHAP)
    (h : hap.value = none) : (Characteristic.applyOmitValues opt hap).value = none := by
  rcases opt with _ | o
  · exact h
  · by_cases ho : o.omitValues <;> simp [Characteristic.applyOmitValues, ho, h]

/-! # Claim theorems -/

/-- Claim C10. The wire projection is read-only with respect to the cell:
for every cell state and every options argument, the cell state after
`toHAP` — cached value, props (format, unit, bounds, permissions),
displayName, UUID and iid — equals the state before; clamping, coercion
and truncation affect only the returned projection object. -/
theorem C10_toHAP_readonly (c : Characteristic) (opt : Option ToHAPOptions) :
    (Characteristic.toHAPRun c opt).2 = c ∧
    (Characteristic.toHAPRun c opt).2.value = c.value ∧
    (Characteristic.toHAPRun c opt).2.props = c.props ∧
    (Characteristic.toHAPRun c opt).2.displayName = c.displayName ∧
    (Characteristic.toHAPRun c opt).2.UUID = c.UUID ∧
    (Characteristic.toHAPRun c opt).2.iid = c.iid :=
  ⟨rfl, rfl, rfl, rfl, rfl, rfl⟩

/-- Claim C2. When a registered read- or write-override resolves its
latched callback with an error, the caller's callback is invoked with that
same error, the cached value (indeed the whole cell state) is unchanged,
and no `change` event is emitted — for `getValue` and for `setValue`,
whatever further resolutions follow. -/
theorem C2_override_error_propagates (c : Characteristic) (e : String)
    (rs : List (Except String JSValue)) (ws : List (Option String))
    (x : JSValue) (ctx : Option String) :
    Characteristic.getValue c (some (Except.error e :: rs)) ctx
      = ({ callbackCalls := [Except.error e], events := [] }, c) ∧
    Characteristic.setValue c x (some (some e :: ws)) ctx
      = ({ callbackCalls := [some e], events := [] }, c) :=
  ⟨rfl, rfl⟩

/-- Claim C7. Per request, the caller's callback fires at most once: the
callback handed to the override is latched, so a request whose override
resolves with `r` first behaves exactly as if `r` were the only
resolution — later resolutions cause no callback invocation, no cache
mutation and no change event — and every resolution list produces at most
one callback invocation. Stated for `getValue` and `setValue`. -/
theorem C7_latched_callback_at_most_once (c : Characteristic) (x : JSValue)
    (ctx : Option String) (r : Except String JSValue)
    (rs rl : List (Except String JSValue))
    (w : Option String) (ws wl : List (Option String)) :
    Characteristic.getValue c (some (r :: rs)) ctx
      = Characteristic.getValue c (some [r]) ctx ∧
    (Characteristic.getValue c (some rl) ctx).1.callbackCalls.length ≤ 1 ∧
    Characteristic.setValue c x (some (w :: ws)) ctx
      = Characteristic.setValue c x (some [w]) ctx ∧
    (Characteristic.setValue c x (some wl) ctx).1.callbackCalls.length ≤ 1 := by
  refine ⟨rfl, ?_, rfl, ?_⟩
  · rcases rl with _ | ⟨r', rl⟩
    · simp [Characteristic.getValue, Characteristic.latchFirst]
    · rcases r' with e | v <;> simp [Characteristic.getValue, Characteristic.latchFirst]
  · rcases wl with _ | ⟨w', wl⟩
    · simp [Characteristic.setValue, Characteristic.latchFirst]
    · rcases w' with _ | e <;> simp [Characteristic.setValue, Characteristic.latchFirst]

/-- Claim C4. A cell whose permissions list lacks `READ` never carries a
`value` key in its projection, for every cached value, every props
configuration and every options argument (present or absent, with or
without `omitValues`). -/
theorem C4_no_read_no_value (c : Characteristic) (opt : Option ToHAPOptions)
    (h : Perm.read ∉ c.props.perms) :
    (Characteristic.toHAP c opt).value = none := by
  unfold Characteristic.toHAP Characteristic.toHAPRun
  exact applyOmitValues_value_none opt _ (by simp [Characteristic.applyReadPerm, h])

/-- Concrete cell for the C4 witness: write-only boolean cell. -/
def c4ex : Characteristic :=
  { displayName := "Identify"
    UUID := "00000014"
    value := JSValue.bool true
    props := { format := some Format.bool, perms := [Perm.write] } }

/-- Witness for C4 at a concrete write-only cell, with `omitValues` false. -/
theorem C4_witness :
    Perm.read ∉ c4ex.props.perms ∧
    (Characteristic.toHAP c4ex (some { omitValues := false })).value = none :=
  ⟨by decide, C4_no_read_no_value c4ex (some { omitValues := false }) (by decide)⟩

/-- Claim C9 (amended). Two successive `updateValue(x)` calls: writing `nv`,
the default-filled value of `x` (which is `x` itself whenever `x` is not
null/undefined), the first call emits exactly one `change` event — carrying
the old cached value and `nv` — iff it alters the cache, and the second
call emits none; when the cache already holds `nv`, neither call emits. -/
theorem C9_updateValue_twice (c : Characteristic) (x : JSValue) (ctx : Option String) :
    (Characteristic.updateValue c x ctx).1.events
      = (if c.value ≠ (if x = JSValue.null then c.getDefaultValue else x) then
          [⟨c.value, if x = JSValue.null then c.getDefaultValue else x, ctx⟩]
        else []) ∧
    (Characteristic.updateValue (Characteristic.updateValue c x ctx).2 x ctx).1.events = [] := by
  constructor
  · rfl
  · by_cases hx : x = JSValue.null <;>
      simp [Characteristic.updateValue, Characteristic.getDefaultValue, hx]

/-- Concrete cell for the C9 counterexample: boolean cell caching `true`. -/
def c9cex : Characteristic :=
  { displayName := "On"
    UUID := "00000025"
    value := JSValue.bool true
    props := { format := some Format.bool, perms := [Perm.read, Perm.write] } }

/-- Counterexample to C9 as stated: `updateValue(null)` on a boolean cell
caching `true` alters the cache, and the single emitted change event
carries the format default `false` as its new value — not the argument
`x = null` the claim says the event carries. -/
theorem C9_counterexample :
    (Characteristic.updateValue c9cex JSValue.null none).1.events
      = [⟨JSValue.bool true, JSValue.bool false, none⟩] ∧
    JSValue.bool false ≠ JSValue.null := by
  refine ⟨?_, ?_⟩ <;> decide

/-- Claim C1. For a cell whose props set both bounds (making up a
well-formed interval `mn ≤ mx`) and whose cached value is a number `q`, the
value the wire projection serializes — before format coercion — is the
clamp of `q` into the bounds: `mn` when `q` is below `mn`, `mx` when `q` is
above `mx`, and `q` itself inside the bounds. `toHAP` applies exactly
`clampedValue` before its coercion stage (see `Characteristic.hapBase`). -/
theorem C1_toHAP_clamps_to_bounds (c : Characteristic) (q mn mx : ℚ)
    (hv : c.value = JSValue.num q)
    (hmn : c.props.minValue = some mn)
    (hmx : c.props.maxValue = some mx)
    (h : mn ≤ mx) :
    Characteristic.clampedValue c
      = JSValue.num (if q < mn then mn else if mx < q then mx else q) ∧
    (q < mn → Characteristic.clampedValue c = JSValue.num mn) ∧
    (mx < q → Characteristic.clampedValue c = JSValue.num mx) ∧
    (mn ≤ q → q ≤ mx → Characteristic.clampedValue c = JSValue.num q) := by
  have hmain : Characteristic.clampedValue c
      = JSValue.num (if q < mn then mn else if mx < q then mx else q) := by
    unfold Characteristic.clampedValue
    rw [hv, hmn, hmx]
    by_cases h1 : q < mn
    · have h2 : ¬ mx < mn := not_lt.mpr h
      simp [jsLtNum, jsGtNum, toNumber, h1, h2]
    · by_cases h2 : mx < q <;> simp [jsLtNum, jsGtNum, toNumber, h1, h2]
  refine ⟨hmain, ?_, ?_, ?_⟩
  · intro hq
    rw [hmain, if_pos hq]
  · intro hq
    have h1 : ¬ q < mn := not_lt.mpr (le_of_lt (lt_of_le_of_lt h hq))
    rw [hmain, if_neg h1, if_pos hq]
  · intro hq1 hq2
    rw [hmain, if_neg (not_lt.mpr hq1), if_neg (not_lt.mpr hq2)]

/-- Concrete cell for the C1 witness: a Brightness-like uint8 cell with
bounds 0–100 caching 150. -/
def c1ex : Characteristic :=
  { displayName := "Brightness"
    UUID := "00000008"
    value := JSValue.num 150
    props := { format := some Format.uint8, minValue := some 0, maxValue := some 100,
               perms := [Perm.read, Perm.write] } }

/-- Witness for C1: the out-of-range cached value 150 serializes as the
upper bound 100. -/
theorem C1_witness :
    (0 : ℚ) ≤ 100 ∧ Characteristic.clampedValue c1ex = JSValue.num 100 := by
  have h := C1_toHAP_clamps_to_bounds c1ex 150 0 100 rfl rfl rfl (by norm_num)
  exact ⟨by norm_num, h.2.2.1 (by norm_num)⟩

/-- Claim C3 (amended). For a string-format cell whose value reaching the
string branch is the string `s` (readable, `omitValues` not requested):
when the byte length of `s` exceeds 256, the emitted value is the UTF-8
decoding of the first 256 bytes of `s` — exactly 256 bytes whenever the
cut falls on a character boundary, as for all-ASCII strings — and the
projection carries `maxLen = 256`; at 65–256 bytes the value is emitted in
full with `maxLen` equal to the actual byte length; at or below 64 bytes
no `maxLen` field is present. -/
theorem C3_string_length_rules (c : Characteristic) (s : String)
    (hfmt : c.props.format = some Format.string)
    (hval : Characteristic.clampedValue c = JSValue.str s)
    (hperm : Perm.read ∈ c.props.perms) :
    ((Characteristic.toHAP c none).value
        = some (JSValue.str (if 256 < utf8Len s then bufferUtf8Slice s 256 else s))) ∧
    ((Characteristic.toHAP c none).maxLen
        = if 256 < utf8Len s then some 256
          else if 64 < utf8Len s then some (utf8Len s) else none) ∧
    (256 < utf8Len s → listByteLen (takeBytes 256 s.data) = 256 →
        utf8Len (bufferUtf8Slice s 256) = 256) := by
  have hco : Characteristic.coerceValue c.props (Characteristic.clampedValue c)
      = JSValue.str s := by
    rw [hval]
    simp [Characteristic.coerceValue, hfmt]
  refine ⟨?_, ?_, ?_⟩
  · unfold Characteristic.toHAP Characteristic.toHAPRun Characteristic.hapBase
    rw [hco, hfmt]
    unfold Characteristic.stringStage
    by_cases h1 : 256 < utf8Len s
    · simp [h1, Characteristic.applyReadPerm, Characteristic.applyOmitValues, hperm]
    · by_cases h2 : 64 < utf8Len s <;>
        simp [h1, h2, Characteristic.applyReadPerm, Characteristic.applyOmitValues, hperm]
  · unfold Characteristic.toHAP Characteristic.toHAPRun Characteristic.hapBase
    rw [hco, hfmt]
    unfold Characteristic.stringStage
    by_cases h1 : 256 < utf8Len s
    · simp [h1, Characteristic.applyReadPerm, Characteristic.applyOmitValues, hperm]
    · by_cases h2 : 64 < utf8Len s <;>
        simp [h1, h2, Characteristic.applyReadPerm, Characteristic.applyOmitValues, hperm]
  · intro h1 h2
    unfold bufferUtf8Slice
    rw [if_neg (not_le.mpr h1), if_pos h2]
    show listByteLen (takeBytes 256 s.data) = 256
    exact h2

/-- Concrete cell for the C3 witness: a string cell caching 300 ASCII
bytes. -/
def c3wit : Characteristic :=
  { displayName := "Name"
    UUID := "00000023"
    value := JSValue.str (String.mk (List.replicate 300 'a'))
    props := { format := some Format.string, perms := [Perm.read] } }

set_option maxRecDepth 40000 in
/-- Witness for C3: the 300-byte ASCII value truncates to exactly the first
256 bytes and flags `maxLen = 256`. -/
theorem C3_witness :
    (Characteristic.toHAP c3wit none).value
      = some (JSValue.str (String.mk (List.replicate 256 'a'))) ∧
    (Characteristic.toHAP c3wit none).maxLen = some 256 := by
  have h := C3_string_length_rules c3wit (String.mk (List.replicate 300 'a'))
    rfl rfl (by decide)
  refine ⟨?_, ?_⟩
  · rw [h.1]
    decide
  · rw [h.2.1]
    decide

/-- Concrete cell for the C3 counterexample: a string cell caching 86
copies of the three-byte character U+20AC (258 bytes in total). -/
def c3cex : Characteristic :=
  { displayName := "Name"
    UUID := "00000023"
    value := JSValue.str (String.mk (List.replicate 86 '€'))
    props := { format := some Format.string, perms := [Perm.read] } }

set_option maxRecDepth 40000 in
/-- Counterexample to C3 as stated: a 258-byte value of three-byte
characters is flagged with `maxLen = 256`, but the emitted value is not
"exactly 256 bytes": the 256-byte cut falls inside the 86th character, so
the decoded value is 85 characters plus a replacement character — 258
bytes once re-encoded. -/
theorem C3_counterexample :
    (Characteristic.toHAP c3cex none).maxLen = some 256 ∧
    (Characteristic.toHAP c3cex none).value
      = some (JSValue.str (String.mk (List.replicate 85 '€' ++ ['�']))) ∧
    utf8Len (String.mk (List.replicate 85 '€' ++ ['�'])) ≠ 256 := by
  refine ⟨?_, ?_, ?_⟩ <;> decide

/-- Claim C5. Adding a characteristic whose UUID duplicates an existing
member throws synchronously and leaves the service's characteristic list
exactly as it was; likewise `addBridgedAccessory` throws when the
accessory is itself a bridge, or when its UUID duplicates an existing
bridged accessory, leaving the bridged list (and the accessory) unchanged. -/
theorem C5_duplicate_add_throws (s : Service) (c : Characteristic)
    (b : Bridge) (a : Accessory) (d : Bool) :
    (s.characteristics.any (fun e => e.UUID = c.UUID) = true →
      Service.addCharacteristic s c
        = (Except.error (HKError.duplicateCharacteristicUUID c.UUID), s)) ∧
    (a.isBridge = true →
      Bridge.addBridgedAccessory b a d
        = (Except.error HKError.cannotBridgeBridge, b, a)) ∧
    (a.isBridge = false → b.bridgedAccessories.any (fun e => e.UUID = a.UUID) = true →
      Bridge.addBridgedAccessory b a d
        = (Except.error (HKError.duplicateBridgedUUID a.UUID), b, a)) := by
  refine ⟨?_, ?_, ?_⟩
  · intro h
    obtain ⟨e, he, hpe⟩ := List.any_eq_true.mp h
    have hsome : (s.characteristics.find? (fun e => e.UUID = c.UUID)).isSome :=
      List.find?_isSome.mpr ⟨e, he, hpe⟩
    obtain ⟨e', he'⟩ := Option.isSome_iff_exists.mp hsome
    have heq : e'.UUID = c.UUID := by simpa using List.find?_some he'
    unfold Service.addCharacteristic
    rw [he']
    simp [heq]
  · intro h
    simp [Bridge.addBridgedAccessory, h]
  · intro h1 h2
    obtain ⟨e, he, hpe⟩ := List.any_eq_true.mp h2
    have hsome : (b.bridgedAccessories.find? (fun e => e.UUID = a.UUID)).isSome :=
      List.find?_isSome.mpr ⟨e, he, hpe⟩
    obtain ⟨e', he'⟩ := Option.isSome_iff_exists.mp hsome
    have heq : e'.UUID = a.UUID := by simpa using List.find?_some he'
    unfold Bridge.addBridgedAccessory
    rw [h1]
    simp only [Bool.false_eq_true, if_false]
    rw [he']
    simp [heq]

/-- Concrete states for the C5 witness. -/
def c5a : Characteristic := { displayName := "On", UUID := "u1" }

/-- A second characteristic carrying the same UUID as `c5a`. -/
def c5dup : Characteristic := { displayName := "On Again", UUID := "u1" }

/-- A service already holding `c5a`. -/
def s5ex : Service := { displayName := "Lightbulb", UUID := "s1", characteristics := [c5a] }

/-- A bridged accessory. -/
def a5child : Accessory := { displayName := "Lamp", UUID := "a1" }

/-- An accessory that is itself a bridge. -/
def a5bridge : Accessory := { displayName := "Inner Bridge", UUID := "a2", isBridge := true }

/-- A second accessory carrying the same UUID as `a5child`. -/
def a5dup : Accessory := { displayName := "Lamp Again", UUID := "a1" }

/-- A bridge already holding `a5child`. -/
def b5ex : Bridge := { displayName := "Bridge", UUID := "b1", bridgedAccessories := [a5child] }

/-- Witness for C5: a duplicate characteristic, a nested bridge, and a
duplicate bridged accessory each fail, leaving the collections unchanged. -/
theorem C5_witness :
    Service.addCharacteristic s5ex c5dup
      = (Except.error (HKError.duplicateCharacteristicUUID "u1"), s5ex) ∧
    Bridge.addBridgedAccessory b5ex a5bridge true
      = (Except.error HKError.cannotBridgeBridge, b5ex, a5bridge) ∧
    Bridge.addBridgedAccessory b5ex a5dup false
      = (Except.error (HKError.duplicateBridgedUUID "a1"), b5ex, a5dup) := by
  have h1 := (C5_duplicate_add_throws s5ex c5dup b5ex a5bridge true).1 (by decide)
  have h2 := (C5_duplicate_add_throws s5ex c5dup b5ex a5bridge true).2.1 (by decide)
  have h3 := (C5_duplicate_add_throws s5ex c5dup b5ex a5dup false).2.2 (by decide) (by decide)
  exact ⟨h1, h2, h3⟩

/-- Claim C6 (amended). Removing an absent member behaves asymmetrically:
`Bridge.removeBridgedAccessory` of an accessory with no UUID match among
the bridged accessories fails synchronously with an error and leaves the
list unchanged, but `Service.removeCharacteristic` of a characteristic not
in the service raises no error at all — it returns normally with the
characteristic list untouched. -/
theorem C6_remove_absent (s : Service) (c : Characteristic)
    (b : Bridge) (a : Accessory) (d : Bool) :
    (c ∉ s.characteristics → Service.removeCharacteristic s c = Except.ok s) ∧
    (a.isBridge = false → (∀ e ∈ b.bridgedAccessories, e.UUID ≠ a.UUID) →
      Bridge.removeBridgedAccessory b a d
        = (Except.error HKError.accessoryNotFound, b)) := by
  constructor
  · intro h
    simp [Service.removeCharacteristic, removeFirstEq_eq_none h]
  · intro h1 h2
    simp [Bridge.removeBridgedAccessory, h1, removeFirstByUUID_eq_none h2]

/-- Concrete states for C6: a service holding one characteristic and a
bridge holding one accessory. -/
def c6present : Characteristic := { displayName := "On", UUID := "u1" }

/-- A characteristic that is not a member of `s6ex`. -/
def c6absent : Characteristic := { displayName := "Hue", UUID := "u2" }

/-- A service holding only `c6present`. -/
def s6ex : Service := { displayName := "Lightbulb", UUID := "s1", characteristics := [c6present] }

/-- An accessory whose UUID matches no member of `b6ex`. -/
def a6absent : Accessory := { displayName := "Fan", UUID := "a9" }

/-- A bridge holding one accessory with UUID distinct from `a6absent`. -/
def b6ex : Bridge :=
  { displayName := "Bridge", UUID := "b1",
    bridgedAccessories := [{ displayName := "Lamp", UUID := "a1" }] }

/-- Counterexample to C6 as stated: removing the absent characteristic
`c6absent` from `s6ex` does not fail — `removeCharacteristic` has no throw
path — it returns normally and leaves the service (in particular its
characteristic list) exactly as it was. -/
theorem C6_counterexample :
    Service.removeCharacteristic s6ex c6absent = Except.ok s6ex := by
  decide

/-- Witness for C6 at concrete states: the absent-member removal returns
normally on the service, and fails with `accessoryNotFound` on the bridge. -/
theorem C6_witness :
    Service.removeCharacteristic s6ex c6absent = Except.ok s6ex ∧
    Bridge.removeBridgedAccessory b6ex a6absent false
      = (Except.error HKError.accessoryNotFound, b6ex) := by
  have h := C6_remove_absent s6ex c6absent b6ex a6absent false
  exact ⟨h.1 (by decide), h.2 (by decide) (by decide)⟩

/-- Claim C8 (amended). Lazy promotion happens only for type-descriptor
selectors: when a type selector matches no active characteristic but
matches an optional template, `getCharacteristic` adds the constructor's
instance to the active list and returns it; afterwards the cell's
projection appears in the service's `toHAP` output, and looking the same
selector up again returns the same cell with no further promotion (the
service state is unchanged by the second lookup). A display-name selector
never consults the optional templates: when no active characteristic bears
the name — even if an optional template does — the lookup returns nothing
and the service is unchanged. -/
theorem C8_lazy_promotion (s : Service) (tag tu nm : String) (bp : Characteristic)
    (opt : Option ToHAPOptions)
    (h1 : ∀ e ∈ s.characteristics, matchesSelector tag tu e = false)
    (h2 : s.optionalCharacteristics.any (matchesSelector tag tu) = true)
    (h3 : bp.UUID = tu)
    (h4 : ∀ e ∈ s.characteristics, e.displayName ≠ nm) :
    Service.getCharacteristic s (Selector.byType tag tu bp)
      = (Except.ok (some bp), { s with characteristics := s.characteristics ++ [bp] }) ∧
    Characteristic.toHAP bp opt ∈
      (Service.toHAP { s with characteristics := s.characteristics ++ [bp] } opt).characteristics ∧
    Service.getCharacteristic { s with characteristics := s.characteristics ++ [bp] }
        (Selector.byType tag tu bp)
      = (Except.ok (some bp), { s with characteristics := s.characteristics ++ [bp] }) ∧
    Service.getCharacteristic s (Selector.byName nm) = (Except.ok none, s) := by
  have hnone : s.characteristics.find? (matchesSelector tag tu) = none :=
    List.find?_eq_none.mpr (fun x hx => by simp [h1 x hx])
  have hbp : matchesSelector tag tu bp = true := by
    simp [matchesSelector, h3]
  have hadd : s.characteristics.find? (fun e => e.UUID = bp.UUID) = none := by
    refine List.find?_eq_none.mpr (fun x hx => ?_)
    have hm := h1 x hx
    simp only [matchesSelector, Bool.or_eq_false_iff, decide_eq_false_iff_not] at hm
    simp only [decide_eq_true_eq]
    intro hu
    exact hm.2 (by rw [← h3, hu])
  have hname : s.characteristics.find? (fun c => c.displayName = nm) = none :=
    List.find?_eq_none.mpr (fun x hx => by simp [h4 x hx])
  refine ⟨?_, ?_, ?_, ?_⟩
  · simp only [Service.getCharacteristic, hnone, h2, if_true, Service.addCharacteristic, hadd]
  · simp only [Service.toHAP, List.map_append]
    exact List.mem_append_right _ (by simp)
  · have hfound : (s.characteristics ++ [bp]).find? (matchesSelector tag tu) = some bp := by
      rw [List.find?_append, hnone]
      simp [hbp]
    simp only [Service.getCharacteristic, hfound]
  · simp only [Service.getCharacteristic, hname]

/-- Concrete states for the C8 witness: a lightbulb service with an active
On characteristic and an optional Brightness template. -/
def c8on : Characteristic :=
  { displayName := "On", UUID := "uOn", ctorTag := some "On" }

/-- The optional Brightness template registered on the service. -/
def c8template : Characteristic :=
  { displayName := "Brightness", UUID := "uBri", ctorTag := some "Brightness" }

/-- The instance a `new Brightness()` produces. -/
def c8bp : Characteristic :=
  { displayName := "Brightness", UUID := "uBri", ctorTag := some "Brightness" }

/-- A service with `c8on` active and `c8template` optional. -/
def s8ex : Service :=
  { displayName := "Lightbulb", UUID := "sLight",
    characteristics := [c8on], optionalCharacteristics := [c8template] }

/-- Counterexample to C8 as stated: on `s8ex` no active characteristic
bears the display name "Brightness" while the optional template
`c8template` does, yet the display-name lookup returns nothing and leaves
the service unchanged — the optional-template scan of the source runs only
for constructor selectors, so no promotion happens and nothing is
returned. -/
theorem C8_counterexample :
    s8ex.characteristics.any (fun e => e.displayName = "Brightness") = false ∧
    s8ex.optionalCharacteristics.any (fun e => e.displayName = "Brightness") = true ∧
    Service.getCharacteristic s8ex (Selector.byName "Brightness")
      = (Except.ok none, s8ex) := by
  refine ⟨?_, ?_, ?_⟩ <;> decide

/-- Witness for C8: requesting the unregistered optional Brightness type
promotes it, it appears in `toHAP` output, and a second lookup finds it
without change of state; requesting it by display name instead returns
nothing and changes nothing. -/
theorem C8_witness :
    Service.getCharacteristic s8ex (Selector.byType "Brightness" "uBri" c8bp)
      = (Except.ok (some c8bp), { s8ex with characteristics := [c8on, c8bp] }) ∧
    Characteristic.toHAP c8bp none ∈
      (Service.toHAP { s8ex with characteristics := [c8on, c8bp] } none).characteristics ∧
    Service.getCharacteristic { s8ex with characteristics := [c8on, c8bp] }
        (Selector.byType "Brightness" "uBri" c8bp)
      = (Except.ok (some c8bp), { s8ex with characteristics := [c8on, c8bp] }) ∧
    Service.getCharacteristic s8ex (Selector.byName "Brightness")
      = (Except.ok none, s8ex) := by
  have h := C8_lazy_promotion s8ex "Brightness" "uBri" "Brightness" c8bp none
    (by decide) (by decide) rfl (by decide)
  exact h
